import Mathlib

/-!
Shallow embedding of the anonymous-support Telegram bot (src/main.py) and
verification of the frozen claims about its routing engine.

The embedding models:
- the ticket store (Mongo `tickets` collection) as an association list from
  ObjectId strings to ticket records;
- the block list (`blocked_users` collection) as a list of
  (user_id, blocked_at) entries, queried by `find_one` on user_id;
- the per-user ephemeral `context.user_data` dictionary (holding the
  `reply_ticket_id` slot) as an association list from user id to ticket id;
- outbound transport effects (sends, message edits, log lines) as a list of
  `Out` actions produced by each handler;
- an uncaught Python exception as the `exc` field of a handler result:
  effects produced before the raise are kept, the rest of the handler body
  does not run.

Handlers are translated line by line from src/main.py: `handle_user_message`,
`button_callback`, `handle_admin_reply`, `reply_command`, `test_admin_message`
and `start`.  `processPlainMessage` composes the two MessageHandler groups the
way python-telegram-bot dispatches a plain (non-command) message: group 0 runs
`handle_user_message`; group 1 runs `handle_admin_reply` only when the chat id
equals the configured admin id (the `filters.Chat(chat_id=ADMIN_ID)` filter).
-/

deriving instance DecidableEq for Except

namespace AnonSupp

/-- Attachment of a message or ticket: media kind (photo, voice or video)
plus the opaque transport file id.  Mirrors the `media` sub-document
`{"type": ..., "file_id": ...}` built at src/main.py line 85. -/
structure Media where
  kind : String
  fileId : String
deriving DecidableEq, Repr

/-- Inbound Telegram message as consumed by the handlers: sender id, chat id,
profile fields and the optional text / caption / media payloads.
`photo`, `voice`, `video` hold the file id when that media is present. -/
structure Msg where
  fromId : Int
  chatId : Int
  username : Option String
  firstName : Option String
  lastName : Option String
  text : Option String
  caption : Option String
  photo : Option String
  voice : Option String
  video : Option String
deriving DecidableEq, Repr

/-- Ticket record as inserted by `handle_user_message`
(src/main.py lines 79-86). -/
structure Ticket where
  userId : Int
  userChatId : Int
  username : String
  message : String
  status : String
  media : Option Media
deriving DecidableEq, Repr

/-- External user record read by the check-user action
(src/main.py lines 191-225).  Timestamp fields keep the Python datetime
shape: a wall-clock value plus an optional utc offset (`none` = naive). -/
structure PyDateTime where
  wall : Int
  tzOffset : Option Int
deriving DecidableEq, Repr

/-- Instant of a datetime after the normalization the code performs:
a naive value gets `tzinfo=timezone.utc` stamped on it (so its wall clock is
read as UTC), an aware value is shifted by its offset. -/
def utcInstant (d : PyDateTime) : Int :=
  match d.tzOffset with
  | none => d.wall
  | some off => d.wall - off

/-- Fields of a record in the external check database that the code consumes.
`premium` defaults to false when absent (`user.get("premium", False)`);
`autoDelete` is `none` when absent and then read as true. -/
structure CheckUser where
  premium : Bool
  premiumUntil : Option PyDateTime
  banUntil : Option PyDateTime
  username : Option String
  gender : Option String
  lastActive : Option String
  banHistory : List String
  autoDelete : Option Bool
deriving DecidableEq, Repr

/-- Outbound effect of a handler: a text send (chat, text, inline-keyboard
buttons as label/payload pairs), a media send (chat, kind, file id, caption,
buttons), an edit of the triggering message, or a log line. -/
inductive Out where
  | sendText : Int → String → List (String × String) → Out
  | sendMedia : Int → String → String → String → List (String × String) → Out
  | editMessage : String → Out
  | logInfo : String → Out
  | logError : String → Out
deriving DecidableEq, Repr

/-- Persistent plus session state visible to the handlers: the ticket
collection (ObjectId string, record), the blocked_users collection
(user_id, blocked_at), the per-user `reply_ticket_id` slots of
`context.user_data`, and the counter from which fresh ObjectIds are minted. -/
structure St where
  tickets : List (String × Ticket)
  blocked : List (Int × Int)
  userData : List (Int × String)
  nextId : Nat
deriving DecidableEq, Repr

/-- Result of running one handler: the state it leaves, the outbound effects
it produced, and the uncaught exception if it raised. -/
structure HRes where
  st : St
  outs : List Out
  exc : Option String
deriving DecidableEq, Repr

/-- Lookup of the `reply_ticket_id` slot of one user's `context.user_data`. -/
def getUD (ud : List (Int × String)) (uid : Int) : Option String :=
  List.lookup uid ud

/-- Assignment `context.user_data["reply_ticket_id"] = tid` for one user. -/
def setUD (ud : List (Int × String)) (uid : Int) (tid : String) : List (Int × String) :=
  (uid, tid) :: ud.filter (fun p => decide (p.1 ≠ uid))

/-- Deletion `del context.user_data["reply_ticket_id"]` (a no-op here when
the slot is absent; every call site in the code guards the del with a
presence check or a successful get). -/
def delUD (ud : List (Int × String)) (uid : Int) : List (Int × String) :=
  ud.filter (fun p => decide (p.1 ≠ uid))

/-- Membership test `db.blocked_users.find_one({"user_id": uid})` read as a
boolean (src/main.py lines 64-67). -/
def isBlocked (st : St) (uid : Int) : Bool :=
  (st.blocked.find? (fun p => decide (p.1 = uid))).isSome

/-- Hex digit characters, lowercase output. -/
def hexChar (n : Nat) : Char :=
  if n < 10 then Char.ofNat (48 + n) else Char.ofNat (87 + n)

/-- Big-endian fixed-width hex rendering. -/
def hexDigits : Nat → Nat → List Char
  | 0, _ => []
  | w + 1, v => hexDigits w (v / 16) ++ [hexChar (v % 16)]

/-- Fresh ObjectId string minted by `insert_one`: the 24-hex-character
rendering of the store's id counter. -/
def genId (n : Nat) : String :=
  String.mk (hexDigits 24 n)

/-- Characters accepted inside an ObjectId string (hex, either case). -/
def isHexDigitChar (c : Char) : Bool :=
  (48 ≤ c.toNat && c.toNat ≤ 57) || (97 ≤ c.toNat && c.toNat ≤ 102)
    || (65 ≤ c.toNat && c.toNat ≤ 70)

/-- Validity of a string as a BSON ObjectId: exactly 24 hex characters. -/
def isValidObjectId (s : String) : Bool :=
  s.length == 24 && s.toList.all isHexDigitChar

/-- ASCII lowercasing of one character. -/
def lowerChar (c : Char) : Char :=
  if 65 ≤ c.toNat && c.toNat ≤ 90 then Char.ofNat (c.toNat + 32) else c

/-- ASCII lowercasing of a string. -/
def lowerStr (s : String) : String :=
  String.mk (s.data.map lowerChar)

/-- The `ObjectId(s)` constructor: a valid id normalizes to lowercase (two
ObjectIds differing only in hex case are the same id), anything else raises
`InvalidId`. -/
def objectIdOf (s : String) : Except String String :=
  if isValidObjectId s then Except.ok (lowerStr s) else Except.error "InvalidId"

/-- Python `str.startswith`: the candidate marker is a list-level head of
the payload. -/
def pyStartsWith (s pre : String) : Bool :=
  List.isPrefixOf pre.data s.data

/-- Character-list splitting on the pipe character, Python `str.split("|")`
semantics: every occurrence separates, empty segments are kept. -/
def splitPipeChars : List Char → List (List Char)
  | [] => [[]]
  | c :: rest =>
    match splitPipeChars rest with
    | [] => [[]]
    | g :: gs => if c = '|' then [] :: g :: gs else (c :: g) :: gs

/-- Python `data.split("|")` on the button payload. -/
def pySplitPipe (s : String) : List String :=
  (splitPipeChars s.data).map String.mk

/-- Effect on the ticket collection of
`update_one({"_id": oid}, {"$set": {"status": "read"}})`: the first record
with the given id gets status `read`; a miss changes nothing and raises
nothing (src/main.py lines 154-159). -/
def markReadStore : List (String × Ticket) → String → List (String × Ticket)
  | [], _ => []
  | (i, t) :: rest, oid =>
    if i = oid then (i, { t with status := "read" }) :: rest
    else (i, t) :: markReadStore rest oid

/-- Python str() of an optional value inside an f-string: `None` when absent. -/
def pyStr (o : Option String) : String :=
  match o with
  | some s => s
  | none => "None"

/-- Python truthiness of an optional string: present and non-empty. -/
def pyTruthy (o : Option String) : Bool :=
  match o with
  | some s => decide (s ≠ "")
  | none => false

/-- Display name computed at src/main.py line 77: the username if any, else
first and last name joined and trimmed. -/
def displayName (m : Msg) : String :=
  match m.username with
  | some u => u
  | none => (((m.firstName.getD "") ++ " ") ++ (m.lastName.getD "")).trim

/-- Content extraction of src/main.py lines 49-62: photo, then voice, then
video (caption as text, empty when absent), else the plain text. -/
def extractContent (m : Msg) : String × Option Media :=
  match m.photo with
  | some fid => (m.caption.getD "", some ⟨"photo", fid⟩)
  | none =>
    match m.voice with
    | some fid => (m.caption.getD "", some ⟨"voice", fid⟩)
    | none =>
      match m.video with
      | some fid => (m.caption.getD "", some ⟨"video", fid⟩)
      | none => (m.text.getD "", none)

/-- Ticket document built at src/main.py lines 79-86. -/
def mkTicket (m : Msg) : Ticket :=
  match extractContent m with
  | (text, media) => ⟨m.fromId, m.chatId, displayName m, text, "new", media⟩

/-- Block notice sent to a blocked user (src/main.py line 68). -/
def blockNoticeText : String :=
  "თქვენ დაბლოკილი ხართ და აღარ შეგიძლიათ შეტყობინებების გაგზავნა"

/-- Usage hint sent to the admin when no reply binding exists
(src/main.py line 74). -/
def usageHintText : String := "Use the Reply button to respond to tickets."

/-- Acknowledgement sent back to the user after ticket creation
(src/main.py line 145). -/
def userAckText : String :=
  "შეტყობინება გაგზავნილია ადმინისტრაციაში, გთოხვ დაელოდო პასუხს!"

/-- Notice sent to the user when their ticket is marked read
(src/main.py line 167). -/
def reviewedText : String := "თქვენი მოთხოვნა განიხილა და საკითხი დახურულია!"

/-- Label the triggering admin message is edited to after mark-as-read
(src/main.py line 169). -/
def closedLabelText : String := "ბილეთი დახურულია!"

/-- Prompt sent after the Reply button is pressed (src/main.py line 173). -/
def promptText : String := "შეიყვანე შეტყობინება: "

/-- Confirmation sent to the admin after a bound reply is forwarded
(src/main.py line 281). -/
def adminConfirmText : String := "შეტყობინება გაიგზავნა მომხმარებელთან!"

/-- Greeting of the /start handler (src/main.py line 40). -/
def greetingText : String :=
  "მოგესალმებით! რით შეგვიძლია დაგეხმაროთ? გთხოვთ მოიწერეთ სრული ტექსტი."

/-- Test message sent by the /testadmin handler (src/main.py line 288). -/
def testMessageText : String := "🔧 Admin test message."

/-- Log line of a successful admin notification (src/main.py line 141). -/
def sendOkLog (adminId uid : Int) : String :=
  ((("✅ Sent message to admin (" ++ toString adminId) ++ ") from ")
    ++ toString uid) ++ "."

/-- Log line of a failed admin notification (src/main.py line 143). -/
def sendFailLog (adminId : Int) : String :=
  ("❌ Failed to send message to admin (" ++ toString adminId) ++ ")"

/-- Admin notification text up to (and including) the backtick right before
the ticket id (src/main.py lines 101-107). -/
def adminMessageFront (m : Msg) (username text : String) : String :=
  "📩 *New Message from User*\n👤 *User:* " ++ pyStr m.firstName ++ " (@"
    ++ username ++ ")\n🆔 *UID:* `" ++ toString m.fromId
    ++ "`\n\n💬 *Message:*\n" ++ text ++ "\n\n📝 *Ticket ID:* `"

/-- Admin notification text built at src/main.py lines 101-107; it ends with
the ticket id between backticks. -/
def adminMessage (m : Msg) (username text tid : String) : String :=
  adminMessageFront m username text ++ tid ++ "`"

/-- Inline keyboard attached to an admin notification
(src/main.py lines 91-98), flattened to label/payload pairs. -/
def ticketKeyboard (tid : String) (uid : Int) : List (String × String) :=
  [("Mark as Read", "read_ticket|" ++ tid),
   ("Reply", "reply_ticket|" ++ tid),
   ("Block User", "block_user|" ++ toString uid),
   ("Check User", "check_user|" ++ toString uid)]

/-- The admin notification send of src/main.py lines 109-140: a media send
carrying the summary as caption when the message had media, else a text
send; either way with the ticket keyboard attached. -/
def theNotif (adminId : Int) (m : Msg) (tid : String) : Out :=
  match extractContent m with
  | (text, some md) =>
    Out.sendMedia adminId md.kind md.fileId
      (adminMessage m (displayName m) text tid) (ticketKeyboard tid m.fromId)
  | (text, none) =>
    Out.sendText adminId (adminMessage m (displayName m) text tid)
      (ticketKeyboard tid m.fromId)

/-- Translation of `handle_user_message` (src/main.py lines 42-145).
`adminSendOk` is false when the notification send to the admin raises inside
the try block (the failure is logged, the handler continues). -/
def handle_user_message (adminId : Int) (adminSendOk : Bool) (st : St) (m : Msg) :
    St × List Out :=
  if isBlocked st m.fromId then
    (st, [Out.sendText m.chatId blockNoticeText []])
  else if m.fromId = adminId then
    match getUD st.userData m.fromId with
    | some _ => (st, [])
    | none => (st, [Out.sendText m.chatId usageHintText []])
  else
    let tid := genId st.nextId
    let st1 := { st with tickets := st.tickets ++ [(tid, mkTicket m)],
                         nextId := st.nextId + 1 }
    let sendOuts :=
      if adminSendOk then
        [theNotif adminId m tid, Out.logInfo (sendOkLog adminId m.fromId)]
      else
        [Out.logError (sendFailLog adminId)]
    (st1, sendOuts ++ [Out.sendText m.chatId userAckText []])

/-- The binding write `context.user_data['reply_ticket_id'] = ticket_id`
performed by the Reply button branch (src/main.py line 172). -/
def bindForReply (st : St) (uid : Int) (tid : String) : St :=
  { st with userData := setUD st.userData uid tid }

/-- The read-and-clear of the binding performed by `handle_admin_reply`
(src/main.py lines 239, 248, 282): the slot value is returned and, when it
was present, deleted. -/
def consumeBinding (st : St) (uid : Int) : Option String × St :=
  match getUD st.userData uid with
  | none => (none, st)
  | some tid => (some tid, { st with userData := delUD st.userData uid })

/-- Yes/No rendering used by the check summary. -/
def yesNo (b : Bool) : String := if b then "Yes" else "No"

/-- The `is_premium` computation of src/main.py lines 200-205: the stored
premium flag, and the (normalized) premium_until lies beyond now. -/
def computeIsPremium (u : CheckUser) (now : Int) : Bool :=
  u.premium &&
    (match u.premiumUntil with
     | none => false
     | some d => decide (utcInstant d > now))

/-- The `is_banned` computation of src/main.py lines 207-214. -/
def computeIsBanned (u : CheckUser) (now : Int) : Bool :=
  match u.banUntil with
  | none => false
  | some d => decide (utcInstant d > now)

/-- Check summary text built at src/main.py lines 216-226. -/
def checkMessage (uid : Int) (u : CheckUser) (isPrem isBan : Bool) : String :=
  "🔍 *User Check Results*\n🆔 User ID: `" ++ toString uid
    ++ "`\n👤 Username: @" ++ u.username.getD "N/A"
    ++ "\n⚧ Gender: " ++ u.gender.getD "Not set"
    ++ "\n💎 Premium: " ++ yesNo isPrem
    ++ "\n🚫 Banned: " ++ yesNo isBan
    ++ "\n📅 Last Active: " ++ u.lastActive.getD "N/A"
    ++ "\n🔨 Ban Count: " ++ toString u.banHistory.length
    ++ "\n📝 Auto Delete: "
    ++ (if u.autoDelete.getD true then "Enabled" else "Disabled")

/-- Translation of `button_callback` (src/main.py lines 147-232).
`senderId` presses the button, `cId` is the chat the button message lives in,
`data` the callback payload, `now` the current UTC instant, `checkDb` the
external user directory.  `_, x = data.split("|")` raises ValueError unless
the split has exactly two parts; `ObjectId` and `int` raise on malformed
arguments; an unmatched action tag falls through every elif and does
nothing. -/
def button_callback (adminId now : Int) (checkDb : List (Int × CheckUser))
    (st : St) (senderId cId : Int) (data : String) : HRes :=
  if pyStartsWith data "read_ticket" then
    match pySplitPipe data with
    | [_, tid] =>
      match objectIdOf tid with
      | Except.error e => ⟨st, [], some e⟩
      | Except.ok oid =>
        let ts := markReadStore st.tickets oid
        let st1 := { st with tickets := ts }
        let notifOuts :=
          match List.lookup oid ts with
          | some t => [Out.sendText t.userChatId reviewedText []]
          | none => []
        ⟨st1, notifOuts ++ [Out.editMessage closedLabelText], none⟩
    | _ => ⟨st, [], some "ValueError"⟩
  else if pyStartsWith data "reply_ticket" then
    match pySplitPipe data with
    | [_, tid] =>
      ⟨bindForReply st senderId tid, [Out.sendText cId promptText []], none⟩
    | _ => ⟨st, [], some "ValueError"⟩
  else if pyStartsWith data "block_user" then
    match pySplitPipe data with
    | [_, uidStr] =>
      match uidStr.toInt? with
      | none => ⟨st, [], some "ValueError"⟩
      | some uid =>
        ⟨{ st with blocked := st.blocked ++ [(uid, now)] },
         [Out.editMessage (("User " ++ toString uid) ++ " has been blocked.")],
         none⟩
    | _ => ⟨st, [], some "ValueError"⟩
  else if pyStartsWith data "check_user" then
    match pySplitPipe data with
    | [_, uidStr] =>
      match uidStr.toInt? with
      | none => ⟨st, [], some "ValueError"⟩
      | some uid =>
        match List.lookup uid checkDb with
        | none =>
          ⟨st, [Out.sendText cId
              (("User " ++ toString uid) ++ " not found in check database.") []],
           none⟩
        | some u =>
          ⟨st, [Out.sendText adminId
              (checkMessage uid u (computeIsPremium u now) (computeIsBanned u now)) []],
           none⟩
    | _ => ⟨st, [], some "ValueError"⟩
  else ⟨st, [], none⟩

/-- Media forwarding chain of src/main.py lines 256-279 (photo, voice,
video; captions default to empty and get the `Admin: ` marker). -/
def forwardMedia (userChat : Int) (m : Msg) : List Out :=
  match m.photo with
  | some fid =>
    [Out.sendMedia userChat "photo" fid ("Admin: " ++ m.caption.getD "") []]
  | none =>
    match m.voice with
    | some fid =>
      [Out.sendMedia userChat "voice" fid ("Admin: " ++ m.caption.getD "") []]
    | none =>
      match m.video with
      | some fid =>
        [Out.sendMedia userChat "video" fid ("Admin: " ++ m.caption.getD "") []]
      | none => []

/-- Forwarding performed by `handle_admin_reply` (src/main.py lines 253-279):
non-empty text wins, else the media chain. -/
def forwardOuts (userChat : Int) (m : Msg) : List Out :=
  match m.text with
  | some t =>
    if t = "" then forwardMedia userChat m
    else [Out.sendText userChat ("Admin: " ++ t) []]
  | none => forwardMedia userChat m

/-- Translation of `handle_admin_reply` (src/main.py lines 234-282): ignore
non-admin senders; ignore the message when no binding is set; else resolve
the bound ticket (the ObjectId constructor may raise), on a miss report
"Ticket not found." and clear the binding, on a hit forward the message to
the ticket's user, confirm to the admin and clear the binding. -/
def handle_admin_reply (adminId : Int) (st : St) (m : Msg) : HRes :=
  if m.fromId ≠ adminId then ⟨st, [], none⟩
  else
    match getUD st.userData m.fromId with
    | none => ⟨st, [], none⟩
    | some tid =>
      match objectIdOf tid with
      | Except.error e => ⟨st, [], some e⟩
      | Except.ok oid =>
        match List.lookup oid st.tickets with
        | none =>
          ⟨{ st with userData := delUD st.userData m.fromId },
           [Out.sendText m.chatId "Ticket not found." []], none⟩
        | some t =>
          ⟨{ st with userData := delUD st.userData m.fromId },
           forwardOuts t.userChatId m
             ++ [Out.sendText m.chatId adminConfirmText []], none⟩

/-- Dispatch of one plain (non-command) inbound message across the two
handler groups (src/main.py lines 327-337): group 0 always runs
`handle_user_message`; group 1 runs `handle_admin_reply` only when the chat
is the admin chat. -/
def processPlainMessage (adminId : Int) (adminSendOk : Bool) (st : St) (m : Msg) :
    HRes :=
  match handle_user_message adminId adminSendOk st m with
  | (st1, out1) =>
    if m.chatId = adminId then
      match handle_admin_reply adminId st1 m with
      | r => ⟨r.st, out1 ++ r.outs, r.exc⟩
    else ⟨st1, out1, none⟩

/-- Translation of `test_admin_message` (src/main.py lines 284-291): clear
the sender's binding slot, then try to send the test message to the admin,
logging success or failure.  No admin check is performed. -/
def test_admin_message (adminId : Int) (sendOk : Bool) (st : St) (senderId : Int) :
    St × List Out :=
  let st1 := { st with userData := delUD st.userData senderId }
  if sendOk then
    (st1, [Out.sendText adminId testMessageText [],
           Out.logInfo "Successfully sent test message to ADMIN_ID."])
  else
    (st1, [Out.logError "Failed to send test message to admin"])

/-- Translation of `reply_command` (src/main.py lines 293-324): non-admin
senders are rejected before any state change; for the admin the binding slot
is deleted, then the explicit ticket id is resolved (ObjectId parse errors
are caught and reported) and the message is forwarded with the `Admin: `
marker. -/
def reply_command (adminId : Int) (st : St) (senderId cId : Int)
    (args : List String) : St × List Out :=
  if senderId ≠ adminId then
    (st, [Out.sendText cId "Unauthorized command." []])
  else
    let st1 := { st with userData := delUD st.userData senderId }
    match args with
    | tid :: firstArg :: restArgs =>
      match objectIdOf tid with
      | Except.error _ => (st1, [Out.sendText cId "Invalid ticket ID." []])
      | Except.ok oid =>
        match List.lookup oid st1.tickets with
        | none => (st1, [Out.sendText cId "Ticket not found." []])
        | some t =>
          (st1, [Out.sendText t.userChatId
                   ("Admin: " ++ String.intercalate " " (firstArg :: restArgs)) [],
                 Out.sendText cId "Reply sent to the user." []])
    | _ => (st1, [Out.sendText cId "Usage: /reply <ticket_id> <message>" []])

/-- Translation of `start` (src/main.py lines 36-40): the admin's binding
slot is cleared, everyone gets the greeting. -/
def start (adminId : Int) (st : St) (senderId cId : Int) : St × List Out :=
  let st1 :=
    if senderId = adminId then { st with userData := delUD st.userData senderId }
    else st
  (st1, [Out.sendText cId greetingText []])

/-- Recognizer of an admin notification among outbound actions: a send to
the admin chat carrying a non-empty inline keyboard (only ticket
notifications carry buttons). -/
def isNotifSend (adminId : Int) : Out → Bool
  | Out.sendText c _ kb => c == adminId && !kb.isEmpty
  | Out.sendMedia c _ _ _ kb => c == adminId && !kb.isEmpty
  | _ => false

/-- Recognizer of a given plain text send (no buttons) to a given chat. -/
def isPlainSend (cId : Int) (txt : String) : Out → Bool
  | Out.sendText c t kb => c == cId && t == txt && kb.isEmpty
  | _ => false

/-- Text (or media caption) carried by an outbound action. -/
def outText : Out → String
  | Out.sendText _ t _ => t
  | Out.sendMedia _ _ _ cap _ => cap
  | Out.editMessage t => t
  | _ => ""

/-- Inline keyboard carried by an outbound action. -/
def outButtons : Out → List (String × String)
  | Out.sendText _ _ kb => kb
  | Out.sendMedia _ _ _ _ kb => kb
  | _ => []

/-- Spec-side reading of a premium/ban deadline: the claim's
`deadline > now`, with a missing deadline reading as false and a
timezone-naive deadline interpreted as UTC. -/
def untilAfter (o : Option PyDateTime) (now : Int) : Bool :=
  match o with
  | none => false
  | some d => decide (utcInstant d > now)

/-! ## Concrete fixtures used by witnesses and counterexamples -/

/-- Empty store/session state. -/
def stEmpty : St := ⟨[], [], [], 0⟩

/-- Plain text message "Hello" from ordinary user 5 in chat 5. -/
def mHello : Msg := ⟨5, 5, some "u5", some "Ann", none, some "Hello", none, none, none, none⟩

/-- Photo message with caption "pic" from ordinary user 5 in chat 5. -/
def mPhoto : Msg := ⟨5, 5, none, some "Bo", none, none, some "pic", some "f1", none, none⟩

/-- State in which user 5 is block-listed. -/
def stBlocked5 : St := ⟨[], [(5, 0)], [], 0⟩

/-- State in which the admin (id 7) is block-listed. -/
def stBlocked7 : St := ⟨[], [(7, 0)], [], 0⟩

/-- A well-formed ObjectId string (24 lowercase hex characters). -/
def oidA : String := "aaaaaaaaaaaaaaaaaaaaaaaa"

/-- Ticket of user 5 as stored after `mHello` was processed. -/
def tkHello : Ticket := ⟨5, 5, "u5", "Hello", "new", none⟩

/-- State holding `tkHello` under `oidA` with the admin bound to it. -/
def stBound : St := ⟨[(oidA, tkHello)], [], [(7, oidA)], 1⟩

/-- State holding `tkHello` under `oidA`, no binding. -/
def stTicket : St := ⟨[(oidA, tkHello)], [], [], 1⟩

/-- Plain text message "On it" from the admin (id 7) in the admin chat. -/
def mAdminReply : Msg := ⟨7, 7, some "adm", some "Ad", none, some "On it", none, none, none, none⟩

/-- Check-database record: premium flag set but premium_until in the past
(naive timestamp 0), ban_until in the future (aware timestamp 10, UTC). -/
def uCheck : CheckUser := ⟨true, some ⟨0, none⟩, some ⟨10, some 0⟩, some "u", none, none, [], none⟩

/-! ## Helper lemmas -/

theorem getUD_setUD_self (ud : List (Int × String)) (uid : Int) (tid : String) :
    getUD (setUD ud uid tid) uid = some tid := by
  simp [getUD, setUD, List.lookup]

theorem lookup_cons_same {α β : Type} [BEq α] [LawfulBEq α] (k : α) (v : β)
    (l : List (α × β)) : List.lookup k ((k, v) :: l) = some v := by
  simp [List.lookup]

theorem lookup_cons_of_ne {α β : Type} [BEq α] [LawfulBEq α] {a k : α} (v : β)
    (l : List (α × β)) (h : a ≠ k) :
    List.lookup a ((k, v) :: l) = List.lookup a l := by
  have hb : (a == k) = false := beq_eq_false_iff_ne.mpr h
  simp [List.lookup, hb]

theorem getUD_delUD_self (ud : List (Int × String)) (uid : Int) :
    getUD (delUD ud uid) uid = none := by
  induction ud with
  | nil => rfl
  | cons p l ih =>
    obtain ⟨k, v⟩ := p
    unfold getUD delUD at *
    rw [List.filter_cons]
    by_cases h : k = uid
    · simp only [h, ne_eq, not_true_eq_false, decide_False, Bool.false_eq_true,
        if_false]
      exact ih
    · simp only [ne_eq, h, not_false_eq_true, decide_True, if_true]
      rw [lookup_cons_of_ne v _ (Ne.symm h)]
      exact ih

theorem lookup_markReadStore_self (ts : List (String × Ticket)) (oid : String)
    (t : Ticket) (h : List.lookup oid ts = some t) :
    List.lookup oid (markReadStore ts oid) = some { t with status := "read" } := by
  induction ts with
  | nil => simp [List.lookup] at h
  | cons p l ih =>
    obtain ⟨i, tv⟩ := p
    by_cases hp : i = oid
    · subst hp
      rw [lookup_cons_same] at h
      cases h
      simp [markReadStore, lookup_cons_same]
    · rw [lookup_cons_of_ne tv _ (Ne.symm hp)] at h
      rw [markReadStore, if_neg hp, lookup_cons_of_ne tv _ (Ne.symm hp)]
      exact ih h

theorem markReadStore_of_lookup_none (ts : List (String × Ticket)) (oid : String)
    (h : List.lookup oid ts = none) :
    markReadStore ts oid = ts := by
  induction ts with
  | nil => rfl
  | cons p l ih =>
    obtain ⟨i, tv⟩ := p
    by_cases hp : i = oid
    · subst hp
      rw [lookup_cons_same] at h
      cases h
    · rw [lookup_cons_of_ne tv _ (Ne.symm hp)] at h
      rw [markReadStore, if_neg hp, ih h]

theorem markReadStore_idem (ts : List (String × Ticket)) (oid : String) :
    markReadStore (markReadStore ts oid) oid = markReadStore ts oid := by
  induction ts with
  | nil => rfl
  | cons p l ih =>
    obtain ⟨i, tv⟩ := p
    by_cases hp : i = oid
    · simp [markReadStore, hp]
    · simp [markReadStore, hp, ih]

theorem handle_admin_reply_tickets (adminId : Int) (st : St) (m : Msg) :
    (handle_admin_reply adminId st m).st.tickets = st.tickets := by
  unfold handle_admin_reply
  split
  · rfl
  · split
    · rfl
    · split
      · rfl
      · split <;> rfl

/-! ## Claim C1 -/

/-- C1: the admin reply binding is single-slot and destructively consumed.
For every admin session, binding ticket A and then ticket B and then
consuming yields B, not A; and when a binding is present, two consecutive
consumptions with no bind in between return the bound ticket id and then
none. -/
theorem binding_single_slot_destructive (st : St) (uid : Int) (A B tid : String)
    (h : getUD st.userData uid = some tid) :
    (consumeBinding (bindForReply (bindForReply st uid A) uid B) uid).1 = some B ∧
    (consumeBinding st uid).1 = some tid ∧
    (consumeBinding (consumeBinding st uid).2 uid).1 = none := by
  refine ⟨?_, ?_, ?_⟩
  · simp [consumeBinding, bindForReply, getUD_setUD_self]
  · simp [consumeBinding, h]
  · simp [consumeBinding, h, getUD_delUD_self]

/-- Witness for C1 at a concrete admin session with ticket id "aa" bound. -/
theorem binding_single_slot_destructive_w :
    getUD ((⟨[], [], [(7, "aa")], 0⟩ : St)).userData 7 = some "aa" ∧
    ((consumeBinding (bindForReply (bindForReply (⟨[], [], [(7, "aa")], 0⟩ : St) 7 "a1") 7 "b2") 7).1 = some "b2" ∧
     (consumeBinding (⟨[], [], [(7, "aa")], 0⟩ : St) 7).1 = some "aa" ∧
     (consumeBinding (consumeBinding (⟨[], [], [(7, "aa")], 0⟩ : St) 7).2 7).1 = none) :=
  ⟨by decide,
   binding_single_slot_destructive ⟨[], [], [(7, "aa")], 0⟩ 7 "a1" "b2" "aa" (by decide)⟩

/-! ## Claim C2 -/

/-- C2 counterexample: the claim that the explicit /reply directive leaves
the admin reply binding unchanged is false.  In a session where the admin
(id 7) has ticket "aa" bound, processing
`/reply aaaaaaaaaaaaaaaaaaaaaaaa hi` deletes the binding (src/main.py lines
299-300), so the binding that existed before no longer exists after. -/
theorem reply_directive_binding_cex :
    getUD ((⟨[], [], [(7, "aa")], 0⟩ : St)).userData 7 = some "aa" ∧
    getUD (reply_command 7 (⟨[], [], [(7, "aa")], 0⟩ : St) 7 7
      ["aaaaaaaaaaaaaaaaaaaaaaaa", "hi"]).1.userData 7 = none := by
  constructor
  · decide
  · decide

/-- C2 amended: processing the /reply directive as the admin unconditionally
clears the admin reply binding before doing anything else, so afterwards no
binding exists; a non-admin sender is rejected and the state is unchanged. -/
theorem reply_directive_binding_effect (adminId : Int) (st : St) (cId sId : Int)
    (args : List String) (hs : sId ≠ adminId) :
    getUD (reply_command adminId st adminId cId args).1.userData adminId = none ∧
    (reply_command adminId st sId cId args).1 = st := by
  constructor
  · have hres : (reply_command adminId st adminId cId args).1.userData
        = delUD st.userData adminId := by
      unfold reply_command
      rw [if_neg (fun hne => hne rfl)]
      rcases args with _ | ⟨tid, _ | ⟨firstArg, restArgs⟩⟩
      · rfl
      · rfl
      · cases hobj : objectIdOf tid with
        | error e => simp [hobj]
        | ok oid =>
          simp only [hobj]
          cases hl : List.lookup oid
              ({ st with userData := delUD st.userData adminId } : St).tickets with
          | none => simp [hl]
          | some t => simp [hl]
    rw [hres]
    exact getUD_delUD_self st.userData adminId
  · unfold reply_command
    rw [if_pos hs]

/-- Witness for C2's amended theorem: admin id 7, non-admin sender 8. -/
theorem reply_directive_binding_effect_w :
    (8 : Int) ≠ 7 ∧
    (getUD (reply_command 7 (⟨[], [], [(7, "aa")], 0⟩ : St) 7 9
        ["aaaaaaaaaaaaaaaaaaaaaaaa", "hi"]).1.userData 7 = none ∧
     (reply_command 7 (⟨[], [], [(7, "aa")], 0⟩ : St) 8 9
        ["aaaaaaaaaaaaaaaaaaaaaaaa", "hi"]).1 = (⟨[], [], [(7, "aa")], 0⟩ : St)) :=
  ⟨by decide,
   reply_directive_binding_effect 7 ⟨[], [], [(7, "aa")], 0⟩ 9 8
     ["aaaaaaaaaaaaaaaaaaaaaaaa", "hi"] (by decide)⟩

/-! ## Claim C10 -/

/-- C10: the test-message command performs no authorization check: any
sender, admin or not, gets their own reply binding cleared and a test
message is sent to the admin; by contrast the /reply directive rejects a
non-admin sender with "Unauthorized command." and changes no state. -/
theorem test_message_no_auth_check (adminId : Int) (st : St) (sId cId : Int)
    (args : List String) (hs : sId ≠ adminId) :
    getUD (test_admin_message adminId true st sId).1.userData sId = none ∧
    (test_admin_message adminId true st sId).2 =
      [Out.sendText adminId testMessageText [],
       Out.logInfo "Successfully sent test message to ADMIN_ID."] ∧
    (reply_command adminId st sId cId args).1 = st ∧
    (reply_command adminId st sId cId args).2 =
      [Out.sendText cId "Unauthorized command." []] := by
  refine ⟨?_, rfl, ?_, ?_⟩
  · simpa [test_admin_message] using getUD_delUD_self st.userData sId
  · unfold reply_command
    rw [if_pos hs]
  · unfold reply_command
    rw [if_pos hs]

/-- Witness for C10: non-admin sender 8 against admin id 7, with a bound
ticket in sender 8's own slot. -/
theorem test_message_no_auth_check_w :
    (8 : Int) ≠ 7 ∧
    (getUD (test_admin_message 7 true (⟨[], [], [(8, "bb")], 0⟩ : St) 8).1.userData 8 = none ∧
     (test_admin_message 7 true (⟨[], [], [(8, "bb")], 0⟩ : St) 8).2 =
       [Out.sendText 7 testMessageText [],
        Out.logInfo "Successfully sent test message to ADMIN_ID."] ∧
     (reply_command 7 (⟨[], [], [(8, "bb")], 0⟩ : St) 8 9 ["x"]).1 =
       (⟨[], [], [(8, "bb")], 0⟩ : St) ∧
     (reply_command 7 (⟨[], [], [(8, "bb")], 0⟩ : St) 8 9 ["x"]).2 =
       [Out.sendText 9 "Unauthorized command." []]) :=
  ⟨by decide,
   test_message_no_auth_check 7 ⟨[], [], [(8, "bb")], 0⟩ 8 9 ["x"] (by decide)⟩

/-! ## Ticket-creation path lemmas -/

theorem handle_user_message_create (adminId : Int) (ok : Bool) (st : St) (m : Msg)
    (hb : isBlocked st m.fromId = false) (ha : m.fromId ≠ adminId) :
    handle_user_message adminId ok st m =
      ({ st with tickets := st.tickets ++ [(genId st.nextId, mkTicket m)],
                 nextId := st.nextId + 1 },
       (if ok then [theNotif adminId m (genId st.nextId),
                    Out.logInfo (sendOkLog adminId m.fromId)]
        else [Out.logError (sendFailLog adminId)])
         ++ [Out.sendText m.chatId userAckText []]) := by
  unfold handle_user_message
  simp [hb, ha]

theorem handle_admin_reply_nonadmin (adminId : Int) (st : St) (m : Msg)
    (ha : m.fromId ≠ adminId) :
    handle_admin_reply adminId st m = ⟨st, [], none⟩ := by
  unfold handle_admin_reply
  rw [if_pos ha]

theorem processPlainMessage_nonadmin (adminId : Int) (ok : Bool) (st : St) (m : Msg)
    (hb : isBlocked st m.fromId = false) (ha : m.fromId ≠ adminId) :
    processPlainMessage adminId ok st m =
      ⟨{ st with tickets := st.tickets ++ [(genId st.nextId, mkTicket m)],
                 nextId := st.nextId + 1 },
       (if ok then [theNotif adminId m (genId st.nextId),
                    Out.logInfo (sendOkLog adminId m.fromId)]
        else [Out.logError (sendFailLog adminId)])
         ++ [Out.sendText m.chatId userAckText []], none⟩ := by
  unfold processPlainMessage
  rw [handle_user_message_create adminId ok st m hb ha]
  dsimp only
  by_cases hc : m.chatId = adminId
  · rw [if_pos hc, handle_admin_reply_nonadmin adminId _ m ha]
    simp
  · rw [if_neg hc]

/-! ## Claim C4 -/

/-- C4: for every inbound plain message from a sender who is neither the
admin nor block-listed, exactly one ticket is created, with status new, and
exactly one admin notification (carrying the ticket id and the
mark-as-read / reply / block / check controls) and exactly one user
acknowledgement are emitted. -/
theorem ticket_creation_exactly_once (adminId : Int) (st : St) (m : Msg)
    (hb : isBlocked st m.fromId = false) (ha : m.fromId ≠ adminId) :
    processPlainMessage adminId true st m =
      ⟨{ st with tickets := st.tickets ++ [(genId st.nextId, mkTicket m)],
                 nextId := st.nextId + 1 },
       [theNotif adminId m (genId st.nextId),
        Out.logInfo (sendOkLog adminId m.fromId),
        Out.sendText m.chatId userAckText []], none⟩ ∧
    (mkTicket m).status = "new" ∧
    List.countP (isNotifSend adminId) (processPlainMessage adminId true st m).outs = 1 ∧
    List.countP (isPlainSend m.chatId userAckText)
      (processPlainMessage adminId true st m).outs = 1 ∧
    outText (theNotif adminId m (genId st.nextId)) =
      adminMessage m (displayName m) (extractContent m).1 (genId st.nextId) ∧
    outButtons (theNotif adminId m (genId st.nextId)) =
      ticketKeyboard (genId st.nextId) m.fromId ∧
    (∃ front, adminMessage m (displayName m) (extractContent m).1 (genId st.nextId)
       = front ++ genId st.nextId ++ "`") := by
  have hrun := processPlainMessage_nonadmin adminId true st m hb ha
  simp only [if_true] at hrun
  refine ⟨by simpa using hrun, rfl, ?_, ?_, ?_, ?_,
    ⟨adminMessageFront m (displayName m) (extractContent m).1, rfl⟩⟩
  · rw [hrun]
    rcases hE : extractContent m with ⟨text, _ | md⟩ <;>
      simp [theNotif, hE, isNotifSend, isPlainSend, ticketKeyboard]
  · rw [hrun]
    rcases hE : extractContent m with ⟨text, _ | md⟩ <;>
      simp [theNotif, hE, isNotifSend, isPlainSend, ticketKeyboard]
  · rcases hE : extractContent m with ⟨text, _ | md⟩ <;>
      simp [theNotif, hE, outText]
  · rcases hE : extractContent m with ⟨text, _ | md⟩ <;>
      simp [theNotif, hE, outButtons]

/-- Witness for C4: user 5 sends "Hello" into an empty store with admin 7. -/
theorem ticket_creation_exactly_once_w :
    isBlocked stEmpty mHello.fromId = false ∧ mHello.fromId ≠ 7 ∧
    (processPlainMessage 7 true stEmpty mHello =
      ⟨{ stEmpty with
           tickets := stEmpty.tickets ++ [(genId stEmpty.nextId, mkTicket mHello)],
           nextId := stEmpty.nextId + 1 },
       [theNotif 7 mHello (genId stEmpty.nextId),
        Out.logInfo (sendOkLog 7 mHello.fromId),
        Out.sendText mHello.chatId userAckText []], none⟩ ∧
     (mkTicket mHello).status = "new" ∧
     List.countP (isNotifSend 7) (processPlainMessage 7 true stEmpty mHello).outs = 1 ∧
     List.countP (isPlainSend mHello.chatId userAckText)
       (processPlainMessage 7 true stEmpty mHello).outs = 1 ∧
     outText (theNotif 7 mHello (genId stEmpty.nextId)) =
       adminMessage mHello (displayName mHello) (extractContent mHello).1
         (genId stEmpty.nextId) ∧
     outButtons (theNotif 7 mHello (genId stEmpty.nextId)) =
       ticketKeyboard (genId stEmpty.nextId) mHello.fromId ∧
     (∃ front, adminMessage mHello (displayName mHello) (extractContent mHello).1
         (genId stEmpty.nextId) = front ++ genId stEmpty.nextId ++ "`")) :=
  ⟨by decide, by decide, ticket_creation_exactly_once 7 stEmpty mHello (by decide) (by decide)⟩

/-! ## Claim C9 -/

/-- C9: a failed outbound send never rolls back the store mutation.  For any
non-blocked, non-admin inbound message, if the admin notification send
fails, the ticket has still been inserted and remains stored, the failure is
logged rather than propagated (no exception escapes), and the user
acknowledgement is still sent. -/
theorem send_failure_no_rollback (adminId : Int) (st : St) (m : Msg)
    (hb : isBlocked st m.fromId = false) (ha : m.fromId ≠ adminId) :
    processPlainMessage adminId false st m =
      ⟨{ st with tickets := st.tickets ++ [(genId st.nextId, mkTicket m)],
                 nextId := st.nextId + 1 },
       [Out.logError (sendFailLog adminId),
        Out.sendText m.chatId userAckText []], none⟩ ∧
    (genId st.nextId, mkTicket m) ∈ (processPlainMessage adminId false st m).st.tickets ∧
    (processPlainMessage adminId false st m).exc = none ∧
    List.countP (isPlainSend m.chatId userAckText)
      (processPlainMessage adminId false st m).outs = 1 := by
  have hrun := processPlainMessage_nonadmin adminId false st m hb ha
  simp only [if_false, Bool.false_eq_true] at hrun
  refine ⟨by simpa using hrun, ?_, ?_, ?_⟩
  · rw [hrun]
    simp
  · rw [hrun]
  · rw [hrun]
    simp [isPlainSend]

/-- Witness for C9: user 5 sends a photo, the admin notification fails. -/
theorem send_failure_no_rollback_w :
    isBlocked stEmpty mPhoto.fromId = false ∧ mPhoto.fromId ≠ 7 ∧
    (processPlainMessage 7 false stEmpty mPhoto =
      ⟨{ stEmpty with
           tickets := stEmpty.tickets ++ [(genId stEmpty.nextId, mkTicket mPhoto)],
           nextId := stEmpty.nextId + 1 },
       [Out.logError (sendFailLog 7),
        Out.sendText mPhoto.chatId userAckText []], none⟩ ∧
     (genId stEmpty.nextId, mkTicket mPhoto) ∈
       (processPlainMessage 7 false stEmpty mPhoto).st.tickets ∧
     (processPlainMessage 7 false stEmpty mPhoto).exc = none ∧
     List.countP (isPlainSend mPhoto.chatId userAckText)
       (processPlainMessage 7 false stEmpty mPhoto).outs = 1) :=
  ⟨by decide, by decide, send_failure_no_rollback 7 stEmpty mPhoto (by decide) (by decide)⟩

/-! ## Claim C5 -/

/-- C5: a plain message from a sender whose user id has an entry in the
block list creates no ticket (the ticket store is unchanged) and the sender
receives the block notice, regardless of any tickets that sender created
before being blocked. -/
theorem blocked_user_no_ticket (adminId : Int) (ok : Bool) (st : St) (m : Msg)
    (hb : isBlocked st m.fromId = true) :
    (processPlainMessage adminId ok st m).st.tickets = st.tickets ∧
    (processPlainMessage adminId ok st m).outs.head? =
      some (Out.sendText m.chatId blockNoticeText []) := by
  have h1 : handle_user_message adminId ok st m =
      (st, [Out.sendText m.chatId blockNoticeText []]) := by
    unfold handle_user_message
    simp [hb]
  unfold processPlainMessage
  rw [h1]
  dsimp only
  by_cases hc : m.chatId = adminId
  · simp only [hc, if_true]
    exact ⟨handle_admin_reply_tickets adminId st m, by simp⟩
  · rw [if_neg hc]
    exact ⟨rfl, rfl⟩

/-- Witness for C5: blocked user 5 writes again while a ticket of theirs is
already stored. -/
theorem blocked_user_no_ticket_w :
    isBlocked ({ stBlocked5 with tickets := [(oidA, tkHello)] } : St) mHello.fromId = true ∧
    ((processPlainMessage 7 true ({ stBlocked5 with tickets := [(oidA, tkHello)] } : St)
        mHello).st.tickets = ({ stBlocked5 with tickets := [(oidA, tkHello)] } : St).tickets ∧
     (processPlainMessage 7 true ({ stBlocked5 with tickets := [(oidA, tkHello)] } : St)
        mHello).outs.head? = some (Out.sendText mHello.chatId blockNoticeText [])) :=
  ⟨by decide,
   blocked_user_no_ticket 7 true { stBlocked5 with tickets := [(oidA, tkHello)] } mHello
     (by decide)⟩

/-! ## Claim C3 -/

/-- C3 counterexample: the claim as stated fails when the admin's own id is
in the block list: the admin (id 7) sends a plain message with no binding,
but the code checks the block list before the admin branch
(src/main.py lines 64-69), so the admin receives the block notice and the
usage hint is never emitted, contradicting the claim's "if no binding
exists, a usage hint is emitted". -/
theorem admin_reply_routing_cex :
    getUD stBlocked7.userData 7 = none ∧
    (processPlainMessage 7 true stBlocked7 mAdminReply).outs =
      [Out.sendText 7 blockNoticeText []] ∧
    Out.sendText 7 usageHintText [] ∉
      (processPlainMessage 7 true stBlocked7 mAdminReply).outs := by
  refine ⟨by decide, by decide, by decide⟩

/-- C3 amended: for every plain message sent by the admin in the admin chat
(chat id equals the admin id), with the admin not block-listed: if a reply
binding exists and the bound ticket resolves, the message body/attachment is
forwarded to the bound ticket's user (non-empty text is forwarded with the
"Admin: " marker in front), a confirmation is sent to the admin and the
binding is cleared; if no binding exists, the usage hint is emitted and no
ticket is created; and whenever a binding exists the hint-producing handler
emits nothing at all, so an admin with an active binding never receives the
usage hint. -/
theorem admin_reply_routing (adminId : Int) (ok : Bool) (st : St) (m : Msg)
    (hfrom : m.fromId = adminId) (hchat : m.chatId = adminId)
    (hnb : isBlocked st adminId = false) :
    (∀ tid oid t, getUD st.userData adminId = some tid →
        objectIdOf tid = Except.ok oid →
        List.lookup oid st.tickets = some t →
        processPlainMessage adminId ok st m =
          ⟨{ st with userData := delUD st.userData adminId },
           forwardOuts t.userChatId m
             ++ [Out.sendText m.chatId adminConfirmText []], none⟩ ∧
        getUD (delUD st.userData adminId) adminId = none) ∧
    (getUD st.userData adminId = none →
        processPlainMessage adminId ok st m =
          ⟨st, [Out.sendText m.chatId usageHintText []], none⟩) ∧
    (∀ tid, getUD st.userData adminId = some tid →
        handle_user_message adminId ok st m = (st, [])) ∧
    (∀ c s, m.text = some s → s ≠ "" →
        forwardOuts c m = [Out.sendText c ("Admin: " ++ s) []]) := by
  have hbm : isBlocked st m.fromId = false := by
    rw [hfrom]; exact hnb
  refine ⟨?_, ?_, ?_, ?_⟩
  · intro tid oid t hbind hobj hlook
    have hu : handle_user_message adminId ok st m = (st, []) := by
      unfold handle_user_message
      rw [hfrom]
      simp [hnb, hbind]
    have har : handle_admin_reply adminId st m =
        ⟨{ st with userData := delUD st.userData adminId },
         forwardOuts t.userChatId m
           ++ [Out.sendText m.chatId adminConfirmText []], none⟩ := by
      unfold handle_admin_reply
      rw [hfrom, if_neg (fun hne => hne rfl)]
      simp [hbind, hobj, hlook]
    refine ⟨?_, getUD_delUD_self st.userData adminId⟩
    unfold processPlainMessage
    rw [hu]
    dsimp only
    rw [if_pos hchat, har]
    simp
  · intro hnone
    have hu : handle_user_message adminId ok st m =
        (st, [Out.sendText m.chatId usageHintText []]) := by
      unfold handle_user_message
      rw [hfrom]
      simp [hnb, hnone]
    have har : handle_admin_reply adminId st m = ⟨st, [], none⟩ := by
      unfold handle_admin_reply
      rw [hfrom, if_neg (fun hne => hne rfl)]
      simp [hnone]
    unfold processPlainMessage
    rw [hu]
    dsimp only
    rw [if_pos hchat, har]
    simp
  · intro tid hbind
    unfold handle_user_message
    rw [hfrom]
    simp [hnb, hbind]
  · intro c s hs hne
    unfold forwardOuts
    rw [hs]
    dsimp only
    rw [if_neg hne]

/-- Witness for C3's amended theorem: admin 7 replies "On it" with ticket
`oidA` bound and resolving to `tkHello`. -/
theorem admin_reply_routing_w :
    mAdminReply.fromId = 7 ∧ mAdminReply.chatId = 7 ∧
    isBlocked stBound 7 = false ∧
    ((∀ tid oid t, getUD stBound.userData 7 = some tid →
        objectIdOf tid = Except.ok oid →
        List.lookup oid stBound.tickets = some t →
        processPlainMessage 7 true stBound mAdminReply =
          ⟨{ stBound with userData := delUD stBound.userData 7 },
           forwardOuts t.userChatId mAdminReply
             ++ [Out.sendText mAdminReply.chatId adminConfirmText []], none⟩ ∧
        getUD (delUD stBound.userData 7) 7 = none) ∧
     (getUD stBound.userData 7 = none →
        processPlainMessage 7 true stBound mAdminReply =
          ⟨stBound, [Out.sendText mAdminReply.chatId usageHintText []], none⟩) ∧
     (∀ tid, getUD stBound.userData 7 = some tid →
        handle_user_message 7 true stBound mAdminReply = (stBound, [])) ∧
     (∀ c s, mAdminReply.text = some s → s ≠ "" →
        forwardOuts c mAdminReply = [Out.sendText c ("Admin: " ++ s) []])) :=
  ⟨by decide, by decide, by decide,
   admin_reply_routing 7 true stBound mAdminReply (by decide) (by decide) (by decide)⟩

/-! ## Claim C6 -/

/-- Read-button branch of `button_callback` in closed form, for any payload
that splits into the read tag and a ticket id accepted by `ObjectId`. -/
theorem button_callback_read (adminId now : Int) (cdb : List (Int × CheckUser))
    (st : St) (sId cId : Int) (data tid oid : String)
    (hsw : pyStartsWith data "read_ticket" = true)
    (hsp : pySplitPipe data = ["read_ticket", tid])
    (hoid : objectIdOf tid = Except.ok oid) :
    button_callback adminId now cdb st sId cId data =
      ⟨{ st with tickets := markReadStore st.tickets oid },
       (match List.lookup oid (markReadStore st.tickets oid) with
        | some t => [Out.sendText t.userChatId reviewedText []]
        | none => []) ++ [Out.editMessage closedLabelText], none⟩ := by
  unfold button_callback
  rw [if_pos hsw, hsp]
  dsimp only
  simp only [hoid]

/-- C6 counterexample: the claim as stated fails for a malformed id.  On the
payload `read_ticket|zz` the `ObjectId` constructor raises before the edit,
so the handler invocation dies with an exception and the triggering message
is never edited to the closed label, contradicting "the handler does not
crash ... and still edits the triggering admin message". -/
theorem read_malformed_id_cex :
    (button_callback 7 0 [] stEmpty 7 7 "read_ticket|zz").exc = some "InvalidId" ∧
    Out.editMessage closedLabelText ∉
      (button_callback 7 0 [] stEmpty 7 7 "read_ticket|zz").outs := by
  refine ⟨by decide, by decide⟩

/-- C6 amended: for a read-button press whose id is well-formed (accepted by
the ObjectId constructor) but does not resolve to a stored ticket, the
handler does not crash, sends no user notification, and still edits the
triggering admin message to the fixed closed label; a malformed id instead
raises inside the handler before the edit. -/
theorem read_unknown_id_graceful (adminId now : Int) (cdb : List (Int × CheckUser))
    (st : St) (sId cId : Int) (data tid oid : String)
    (hsw : pyStartsWith data "read_ticket" = true)
    (hsp : pySplitPipe data = ["read_ticket", tid])
    (hoid : objectIdOf tid = Except.ok oid)
    (hmiss : List.lookup oid st.tickets = none) :
    button_callback adminId now cdb st sId cId data =
      ⟨st, [Out.editMessage closedLabelText], none⟩ := by
  obtain ⟨tks, blk, ud, nid⟩ := st
  rw [button_callback_read adminId now cdb _ sId cId data tid oid hsw hsp hoid]
  dsimp only at hmiss
  rw [markReadStore_of_lookup_none tks oid hmiss]
  dsimp only
  rw [hmiss]
  rfl

/-- Witness for C6's amended theorem: well-formed id `oidA` against an empty
ticket store. -/
theorem read_unknown_id_graceful_w :
    (pyStartsWith "read_ticket|aaaaaaaaaaaaaaaaaaaaaaaa" "read_ticket" = true) ∧
    (pySplitPipe "read_ticket|aaaaaaaaaaaaaaaaaaaaaaaa" = ["read_ticket", oidA]) ∧
    (objectIdOf oidA = Except.ok oidA) ∧
    (List.lookup oidA stEmpty.tickets = none) ∧
    button_callback 7 0 [] stEmpty 7 7 "read_ticket|aaaaaaaaaaaaaaaaaaaaaaaa" =
      ⟨stEmpty, [Out.editMessage closedLabelText], none⟩ :=
  ⟨by decide, by decide, by decide, by decide,
   read_unknown_id_graceful 7 0 [] stEmpty 7 7 "read_ticket|aaaaaaaaaaaaaaaaaaaaaaaa"
     oidA oidA (by decide) (by decide) (by decide) (by decide)⟩

/-! ## Claim C7 -/

/-- C7: MarkRead is idempotent.  For a stored ticket, pressing the read
button twice leaves the ticket with status read after each press, neither
press raises, the second press changes no stored ticket at all, and no
field other than status (user id, chat, name, body, attachment) is changed. -/
theorem mark_read_idempotent (adminId now : Int) (cdb : List (Int × CheckUser))
    (st : St) (sId cId : Int) (data tid oid : String) (t : Ticket)
    (hsw : pyStartsWith data "read_ticket" = true)
    (hsp : pySplitPipe data = ["read_ticket", tid])
    (hoid : objectIdOf tid = Except.ok oid)
    (ht : List.lookup oid st.tickets = some t) :
    (button_callback adminId now cdb st sId cId data).exc = none ∧
    List.lookup oid (button_callback adminId now cdb st sId cId data).st.tickets
      = some { t with status := "read" } ∧
    (button_callback adminId now cdb
       (button_callback adminId now cdb st sId cId data).st sId cId data).exc = none ∧
    (button_callback adminId now cdb
       (button_callback adminId now cdb st sId cId data).st sId cId data).st.tickets
      = (button_callback adminId now cdb st sId cId data).st.tickets ∧
    List.lookup oid (button_callback adminId now cdb
       (button_callback adminId now cdb st sId cId data).st sId cId data).st.tickets
      = some { t with status := "read" } ∧
    ∀ t1, List.lookup oid (button_callback adminId now cdb st sId cId data).st.tickets
        = some t1 →
      t1.userId = t.userId ∧ t1.userChatId = t.userChatId ∧
      t1.username = t.username ∧ t1.message = t.message ∧ t1.media = t.media := by
  have h1 := button_callback_read adminId now cdb st sId cId data tid oid hsw hsp hoid
  have hl1 : List.lookup oid (markReadStore st.tickets oid)
      = some { t with status := "read" } :=
    lookup_markReadStore_self st.tickets oid t ht
  have h2 := button_callback_read adminId now cdb
    (button_callback adminId now cdb st sId cId data).st sId cId data tid oid hsw hsp hoid
  refine ⟨by rw [h1], ?_, by rw [h2], ?_, ?_, ?_⟩
  · rw [h1]
    exact hl1
  · rw [h2, h1]
    dsimp only
    rw [markReadStore_idem]
  · rw [h2, h1]
    dsimp only
    rw [markReadStore_idem]
    exact hl1
  · intro t1 hT1
    rw [h1] at hT1
    dsimp only at hT1
    rw [hl1] at hT1
    cases hT1
    exact ⟨rfl, rfl, rfl, rfl, rfl⟩

/-- Witness for C7: the stored ticket `tkHello` under id `oidA`. -/
theorem mark_read_idempotent_w :
    (pyStartsWith "read_ticket|aaaaaaaaaaaaaaaaaaaaaaaa" "read_ticket" = true) ∧
    (pySplitPipe "read_ticket|aaaaaaaaaaaaaaaaaaaaaaaa" = ["read_ticket", oidA]) ∧
    (objectIdOf oidA = Except.ok oidA) ∧
    (List.lookup oidA stTicket.tickets = some tkHello) ∧
    ((button_callback 7 0 [] stTicket 7 7 "read_ticket|aaaaaaaaaaaaaaaaaaaaaaaa").exc = none ∧
     List.lookup oidA (button_callback 7 0 [] stTicket 7 7
         "read_ticket|aaaaaaaaaaaaaaaaaaaaaaaa").st.tickets
       = some { tkHello with status := "read" } ∧
     (button_callback 7 0 [] (button_callback 7 0 [] stTicket 7 7
         "read_ticket|aaaaaaaaaaaaaaaaaaaaaaaa").st 7 7
         "read_ticket|aaaaaaaaaaaaaaaaaaaaaaaa").exc = none ∧
     (button_callback 7 0 [] (button_callback 7 0 [] stTicket 7 7
         "read_ticket|aaaaaaaaaaaaaaaaaaaaaaaa").st 7 7
         "read_ticket|aaaaaaaaaaaaaaaaaaaaaaaa").st.tickets
       = (button_callback 7 0 [] stTicket 7 7
         "read_ticket|aaaaaaaaaaaaaaaaaaaaaaaa").st.tickets ∧
     List.lookup oidA (button_callback 7 0 [] (button_callback 7 0 [] stTicket 7 7
         "read_ticket|aaaaaaaaaaaaaaaaaaaaaaaa").st 7 7
         "read_ticket|aaaaaaaaaaaaaaaaaaaaaaaa").st.tickets
       = some { tkHello with status := "read" } ∧
     ∀ t1, List.lookup oidA (button_callback 7 0 [] stTicket 7 7
         "read_ticket|aaaaaaaaaaaaaaaaaaaaaaaa").st.tickets = some t1 →
       t1.userId = tkHello.userId ∧ t1.userChatId = tkHello.userChatId ∧
       t1.username = tkHello.username ∧ t1.message = tkHello.message ∧
       t1.media = tkHello.media) :=
  ⟨by decide, by decide, by decide, by decide,
   mark_read_idempotent 7 0 [] stTicket 7 7 "read_ticket|aaaaaaaaaaaaaaaaaaaaaaaa"
     oidA oidA tkHello (by decide) (by decide) (by decide) (by decide)⟩

/-! ## Claim C8 -/

/-- C8: for every external user record found by the check-user action,
is_premium equals the premium flag AND premium_until being strictly after
now, and is_banned equals ban_until being strictly after now, where a
timestamp without timezone information is read as UTC (its instant is its
wall clock unchanged); in particular, for any premium_until not in the
future, is_premium is false regardless of the stored premium flag. -/
theorem check_user_flags (u : CheckUser) (now : Int) :
    computeIsPremium u now = (u.premium && untilAfter u.premiumUntil now) ∧
    computeIsBanned u now = untilAfter u.banUntil now ∧
    (∀ e : PyDateTime, e.tzOffset = none → utcInstant e = e.wall) ∧
    (∀ d, u.premiumUntil = some d → utcInstant d ≤ now →
      computeIsPremium u now = false) := by
  refine ⟨rfl, ?_, ?_, ?_⟩
  · unfold computeIsBanned untilAfter
    rfl
  · intro e he
    simp [utcInstant, he]
  · intro d hd hpast
    unfold computeIsPremium
    rw [hd]
    simp [not_lt.mpr hpast]

/-- Witness for C8: record with the premium flag set but premium_until in
the past (naive timestamp 0 read as UTC), checked at instant 5. -/
theorem check_user_flags_w :
    computeIsPremium uCheck 5 = (uCheck.premium && untilAfter uCheck.premiumUntil 5) ∧
    computeIsBanned uCheck 5 = untilAfter uCheck.banUntil 5 ∧
    (∀ e : PyDateTime, e.tzOffset = none → utcInstant e = e.wall) ∧
    (∀ d, uCheck.premiumUntil = some d → utcInstant d ≤ 5 →
      computeIsPremium uCheck 5 = false) :=
  check_user_flags uCheck 5

end AnonSupp
